import Mathlib

/-!
Verification development for the `apikit_cli` developer-workflow tool
(`apikit_cli/apikit.py`).  The definitions below are a shallow embedding of
the port allocator, the process runner, the file-backed container registry,
the ephemeral service provisioner (MongoDB / Redis), the composite command
dispatcher and the version comparison used by the self-upgrade command.

Modelling conventions:
- Python strings are Lean `String`s; where the code splits a string we work
  on `String.data` (its `List Char`) with `pySplit`, a direct model of
  Python's `str.split(sep)` for a one-character separator.
- The registry file is `Option String`: `none` is "file absent", `some s`
  is "file exists with contents `s`".
- External process execution is modelled by an oracle `ProcBehavior`
  describing what the launched process would do (its exit code, captured
  stdout/stderr, wall-clock duration, or a spawn failure).
- A raised Python exception is modelled as the `Except.error` branch;
  `RaiseSite` records the arguments the code passes to the
  `APIKitCLIException` constructor at the raise site, while
  `APIKitCLIException` itself models the *value* that constructor actually
  produces (its `__init__` body is `pass`, so only the positional message,
  stored by `BaseException.__new__`, survives; all keyword context is
  discarded).
-/

namespace ApikitCLI

/-! ### Python string helpers -/

/-- Model of Python `s.split(sep)` for a single-character separator, on the
character list of the string.  Python's split of the empty string is `['']`,
hence the base case `[[]]`. -/
def pySplit (sep : Char) : List Char → List (List Char)
  | [] => [[]]
  | x :: xs =>
    match pySplit sep xs with
    | [] => [[]]
    | chunk :: chunks =>
      if x = sep then [] :: chunk :: chunks
      else (x :: chunk) :: chunks

/-- Model of Python `a or b` for optional strings (`None` and `''` are falsy). -/
def pyOr : Option String → Option String → Option String
  | some s, b => if s = "" then b else some s
  | none, b => b

/-- Model of Python `str(x)` for an optional string (`str(None) = 'None'`). -/
def pyStrOpt : Option String → String
  | none => "None"
  | some s => s

theorem string_data_append (a b : String) : (a ++ b).data = a.data ++ b.data := rfl

theorem string_mk_data (s : String) : String.mk s.data = s := rfl

theorem pySplit_ne_nil (c : Char) (l : List Char) : pySplit c l ≠ [] := by
  induction l with
  | nil => simp [pySplit]
  | cons x xs ih =>
    rcases hxs : pySplit c xs with _ | ⟨chunk, chunks⟩
    · exact absurd hxs ih
    · simp only [pySplit, hxs]
      split <;> simp

theorem pySplit_cons (c x : Char) (xs chunk : List Char)
    (chunks : List (List Char)) (h : pySplit c xs = chunk :: chunks) :
    pySplit c (x :: xs)
      = if x = c then [] :: chunk :: chunks else (x :: chunk) :: chunks := by
  simp [pySplit, h]

theorem pySplit_append_cons (c : Char) (a b : List Char) :
    pySplit c (a ++ c :: b) = pySplit c a ++ pySplit c b := by
  induction a with
  | nil =>
    rcases hb : pySplit c b with _ | ⟨chunk, chunks⟩
    · exact absurd hb (pySplit_ne_nil c b)
    · simp [pySplit, hb]
  | cons x xs ih =>
    rcases hxs : pySplit c xs with _ | ⟨chunk, chunks⟩
    · exact absurd hxs (pySplit_ne_nil c xs)
    · rw [List.cons_append,
        pySplit_cons c x (xs ++ c :: b) chunk (chunks ++ pySplit c b)
          (by rw [ih, hxs]; rfl),
        pySplit_cons c x xs chunk chunks hxs]
      split <;> simp

theorem pySplit_eq_single (c : Char) (l : List Char) (h : c ∉ l) :
    pySplit c l = [l] := by
  induction l with
  | nil => rfl
  | cons x xs ih =>
    have hx : ¬ x = c := fun hh => h (by simp [hh])
    have hxs : c ∉ xs := fun hh => h (List.mem_cons_of_mem _ hh)
    simp [pySplit, ih hxs, hx]

/-! ### Port allocator (`find_free_port`)

The source enumerates `range(start, end + 1)` (randomly permuted when
`shuffle` is set), probes each port with a TCP connect, and returns the
first port whose connect attempt fails (`connect_ex != 0`, i.e. the port is
free).  If every candidate is occupied it binds to port 0 and returns the
OS-assigned ephemeral port.  The probe order is an arbitrary permutation of
the range (`ports`), the occupancy snapshot is `connectFails` (true on a
free port) and the OS fallback answer is the oracle `osPort`. -/

/-- Model of Python `list(range(start, stop + 1))`. -/
def portRange (start stop : Nat) : List Nat :=
  (List.range (stop + 1 - start)).map (· + start)

/-- The port-probing loop of `find_free_port`: first port in probe order
whose connect attempt fails is returned; otherwise the OS fallback port. -/
def find_free_port (ports : List Nat) (connectFails : Nat → Bool) (osPort : Nat) : Nat :=
  match ports.find? connectFails with
  | some port => port
  | none => osPort

theorem mem_portRange (start stop p : Nat) :
    p ∈ portRange start stop ↔ start ≤ p ∧ p ≤ stop := by
  simp only [portRange, List.mem_map, List.mem_range]
  constructor
  · rintro ⟨i, hi, rfl⟩
    omega
  · rintro ⟨h1, h2⟩
    exact ⟨p - start, by omega, by omega⟩

/-! ### Container registry

`cache_running_containers` opens the per-app cache file in append mode
(creating it when absent) and writes `',' + container_name`.
`get_running_containers` reads the file and splits on `','`, returning `[]`
when the file cannot be read.  `clean_running_containers` removes the file,
ignoring a missing file. -/

def cache_running_containers (reg : Option String) (container_name : String) :
    Option String :=
  some (reg.getD "" ++ "," ++ container_name)

def get_running_containers (reg : Option String) : List String :=
  match reg with
  | none => []
  | some s => (pySplit ',' s.data).map String.mk

def clean_running_containers (_ : Option String) : Option String := none

theorem get_after_cache (reg : Option String) (n : String) (h : ',' ∉ n.data) :
    get_running_containers (cache_running_containers reg n)
      = (pySplit ',' (reg.getD "").data).map String.mk ++ [n] := by
  show (pySplit ',' ((reg.getD "" ++ "," ++ n) : String).data).map String.mk = _
  have hd : ((reg.getD "" ++ "," ++ n) : String).data
      = (reg.getD "").data ++ ',' :: n.data := by
    simp [string_data_append]
  rw [hd, pySplit_append_cons, pySplit_eq_single ',' n.data h]
  simp [string_mk_data]

/-! ### Process runner (`execute_shell_command`)

`execute_shell_command` runs `subprocess.run` with `shell=False`,
`check=False`, `text=True` and `timeout = timeout_secs if capture_output
else None`.  Inside the `try` block a non-zero exit with
`raise_on_error=True` raises `APIKitCLIException('Shell error', ...)`;
because that raise happens inside the `try`, it is caught by the trailing
`except Exception` clause and re-wrapped as an
`APIKitCLIException('Unknown shell error', ...)` whose `error` field is
`str(e)` (which is the positional message stored by `BaseException.__new__`)
and whose `exception` field is the class name.  A `TimeoutExpired` is caught
by the first clause and re-raised as `APIKitCLIException('Shell timeout',
cmd=...)`.  Any spawn/OS failure also lands in the `except Exception`
clause. -/

/-- Oracle describing the behaviour of the launched external process:
either it runs to completion (exit code, captured stdout/stderr, wall-clock
duration in seconds) or it cannot be spawned at all. -/
inductive ProcBehavior where
  | runs (returncode : Int) (stdout stderr : String) (duration : Nat)
  | spawnFailure (excName errMsg : String)
deriving DecidableEq

/-- The arguments the code passes to the `APIKitCLIException` constructor at
a raise site: positional message and keyword context (values rendered as
strings). -/
structure RaiseSite where
  msg : String
  kwargs : List (String × String)
deriving DecidableEq

/-- The result record built by `execute_shell_command` (a `TypedDict` in the
source).  `output` is `result.stdout or result.stderr`, which is `None`
(`none`) when output capture was not requested. -/
structure ShellCmdOutput where
  cmd : String
  code : String
  output : Option String
  error : Bool
  elapsed_secs : Nat
deriving DecidableEq

/-- The value produced by the `APIKitCLIException` constructor.  Its
`__init__(self, msg, **kwargs)` body is `pass`: only the positional
arguments, stored by `BaseException.__new__` as `args`, survive; the keyword
context is discarded. -/
structure APIKitCLIException where
  args : List String
deriving DecidableEq

/-- Constructing `APIKitCLIException(msg, **kwargs)`: `BaseException.__new__`
records `args = (msg,)`; the overriding `__init__` stores nothing. -/
def APIKitCLIException.new (msg : String) (_kwargs : List (String × String)) :
    APIKitCLIException :=
  { args := [msg] }

/-- The exception value the process runner actually raises for a given raise
site. -/
def raised_value (s : RaiseSite) : APIKitCLIException :=
  APIKitCLIException.new s.msg s.kwargs

/-- The `cmd` field of the result: the command line itself when given as a
string, `' '.join(command_line)` when given as a vector. -/
def cmdText : String ⊕ List String → String
  | Sum.inl s => s
  | Sum.inr args => String.intercalate " " args

/-- The Python exceptions that can escape the `try` block of
`execute_shell_command`. -/
inductive PyExc where
  | timeoutExpired (cmd : String)
  | apikitExc (msg : String) (kwargs : List (String × String))
  | otherExc (excName errMsg : String)
deriving DecidableEq

/-- The `try` block of `execute_shell_command`: run the process, then on a
non-zero exit with `raise_on_error` raise `APIKitCLIException('Shell
error', ...)`, otherwise build the result record. -/
def tryShell (command_line : String ⊕ List String)
    (raise_on_error capture_output : Bool) (timeout_secs : Nat)
    (proc : ProcBehavior) : Except PyExc ShellCmdOutput :=
  match proc with
  | .spawnFailure excName errMsg => .error (.otherExc excName errMsg)
  | .runs returncode stdout stderr duration =>
    if capture_output = true ∧ timeout_secs < duration then
      .error (.timeoutExpired (cmdText command_line))
    else if returncode ≠ 0 ∧ raise_on_error = true then
      .error (.apikitExc "Shell error"
        [("cmd", cmdText command_line),
         ("shell_code", toString returncode),
         ("shell_output", if capture_output then stdout else "None"),
         ("shell_error", if capture_output then stderr else "None")])
    else
      .ok { cmd := cmdText command_line
            code := toString returncode
            output := pyOr (if capture_output then some stdout else none)
                           (if capture_output then some stderr else none)
            error := decide (returncode ≠ 0)
            elapsed_secs := duration }

/-- The `except` clauses of `execute_shell_command`:
`(TimeoutError, TimeoutExpired)` becomes `'Shell timeout'` carrying the
command; every other exception (including the in-`try` raise of
`APIKitCLIException('Shell error', ...)`) becomes `'Unknown shell error'`
carrying the command, the exception class name, `str(e)` and the working
directory. -/
def exceptHandler (command_line : String ⊕ List String) (cwd : Option String) :
    PyExc → RaiseSite
  | .timeoutExpired _ => ⟨"Shell timeout", [("cmd", cmdText command_line)]⟩
  | .apikitExc msg _ =>
    ⟨"Unknown shell error",
     [("cmd", cmdText command_line), ("exception", "APIKitCLIException"),
      ("error", msg), ("cwd", pyStrOpt cwd)]⟩
  | .otherExc excName errMsg =>
    ⟨"Unknown shell error",
     [("cmd", cmdText command_line), ("exception", excName),
      ("error", errMsg), ("cwd", pyStrOpt cwd)]⟩

def execute_shell_command (command_line : String ⊕ List String)
    (cwd : Option String) (raise_on_error capture_output : Bool)
    (timeout_secs : Nat) (proc : ProcBehavior) :
    Except RaiseSite ShellCmdOutput :=
  match tryShell command_line raise_on_error capture_output timeout_secs proc with
  | .ok r => .ok r
  | .error e => .error (exceptHandler command_line cwd e)

/-! ### Ephemeral service provisioner (`run_mongodb`, `run_redis`,
`stop_docker_container`, `with_mongodb`, `with_redis`)

Each `run_*` allocates a shuffled free port (here the oracle `port`), runs
`docker run -d ...` through `execute_shell_command(cmd, capture_output=True)`
(defaults: `raise_on_error=False`, `timeout_secs=30`), registers the
container name in the registry, and only then returns the connection URL.
An exception from the shell step propagates, leaving the registry
unchanged.  The `with_*` context managers wrap the `run_*` call and the
caller's body in `try: yield ... finally: stop_docker_container(name)`. -/

/-- The `docker run` command line built by `run_mongodb` (note the doubled
space when no storage folder is given, exactly as the f-string produces). -/
def mongodb_docker_command (storage_folder : String) (port : Nat)
    (container_name : String) : String :=
  "docker run -d "
    ++ (if storage_folder ≠ "" then "-v " ++ storage_folder ++ ":/data/db" else "")
    ++ " -p " ++ toString port ++ ":27017 --name " ++ container_name
    ++ " mongo:8.0.4-noble mongod --bind_ip_all"

/-- The `docker run` command line built by `run_redis`. -/
def redis_docker_command (port : Nat) (container_name : String) : String :=
  "docker run -d -p " ++ toString port ++ ":6379 --name " ++ container_name
    ++ " redis:8.0-M02-alpine3.20"

/-- The `docker stop` command line sent by `stop_docker_container`
(graceful stop with a 3 second grace period before the kill). -/
def stop_docker_container_cmd (container_name : String) : String :=
  "docker stop -t 3 " ++ container_name

def run_mongodb (container_name storage_folder : String) (network_host : Bool)
    (port : Nat) (proc : ProcBehavior) (reg : Option String) :
    Except RaiseSite (String × Option String) :=
  match execute_shell_command
      (Sum.inl (mongodb_docker_command storage_folder port container_name))
      none false true 30 proc with
  | .error e => .error e
  | .ok _ =>
    let reg' := cache_running_containers reg container_name
    .ok ((if network_host then "mongodb://localhost:27017"
          else "mongodb://host.docker.internal:" ++ toString port), reg')

def run_redis (container_name : String) (network_host : Bool)
    (port : Nat) (proc : ProcBehavior) (reg : Option String) :
    Except RaiseSite (String × Option String) :=
  match execute_shell_command
      (Sum.inl (redis_docker_command port container_name))
      none false true 30 proc with
  | .error e => .error e
  | .ok _ =>
    let reg' := cache_running_containers reg container_name
    .ok ((if network_host then "redis://localhost:6379/0"
          else "redis://host.docker.internal:" ++ toString port ++ "/0"), reg')

/-- Outcome of a Python block: normal completion or a raised exception. -/
inductive Outcome where
  | ok
  | exc (msg : String)
deriving DecidableEq

/-- The `with_mongodb` context manager.  Result components: the overall
outcome of the `with` block, the registry state after the block, and the
list of container names passed to `stop_docker_container` (the `finally`
clause).  `run_mongodb` is called with the default `network_host=False`; if
it raises, the exception propagates but the `finally` clause still runs. -/
def with_mongodb (container_name storage_folder : String) (port : Nat)
    (proc : ProcBehavior) (reg : Option String) (body : String → Outcome) :
    Outcome × Option String × List String :=
  match run_mongodb container_name storage_folder false port proc reg with
  | .error e => (.exc e.msg, reg, [container_name])
  | .ok (url, reg') =>
    match body url with
    | .ok => (.ok, reg', [container_name])
    | .exc m => (.exc m, reg', [container_name])

/-- The `with_redis` context manager; same shape as `with_mongodb`. -/
def with_redis (container_name : String) (port : Nat)
    (proc : ProcBehavior) (reg : Option String) (body : String → Outcome) :
    Outcome × Option String × List String :=
  match run_redis container_name false port proc reg with
  | .error e => (.exc e.msg, reg, [container_name])
  | .ok (url, reg') =>
    match body url with
    | .ok => (.ok, reg', [container_name])
    | .exc m => (.exc m, reg', [container_name])

/-! ### Command dispatcher (`CommandCLIComposite.execute`)

A composite command iterates over its class-level `commands` list, looks
each verb up in `COMMANDS`, instantiates it and calls `execute()` — with no
exception handling around the loop body.  `impl verb` is the outcome of one
sub-command's `execute()`; a sub-command whose shell steps merely report a
non-zero exit (`raise_on_error=False`) completes normally (`Outcome.ok`).
The second component of the result lists the verbs whose `execute()` was
entered, in order. -/

def composite_execute (impl : String → Outcome) :
    List String → Outcome × List String
  | [] => (.ok, [])
  | ref :: rest =>
    match impl ref with
    | .ok =>
      let r := composite_execute impl rest
      (r.1, ref :: r.2)
    | .exc m => (.exc m, [ref])

/-- The `commands` list of `CICommandCLI`. -/
def ci_commands : List String := ["format", "lint", "compile", "build", "tests"]

/-! ### Version comparison (`version_lower_than`) and the upgrade decision -/

/-- Decimal digits to a natural number, `'0'` having code point 48. -/
def digitsToNat (s : List Char) : Nat :=
  s.foldl (fun acc c => 10 * acc + (c.toNat - 48)) 0

/-- Model of Python `int(p)` on the decimal-integer fragment: an optional
leading minus sign followed by one or more digits; anything else raises
(`none`). -/
def pyInt (s : List Char) : Option Int :=
  match s with
  | '-' :: rest =>
    if rest ≠ [] ∧ rest.all Char.isDigit then some (-(digitsToNat rest : Int))
    else none
  | _ =>
    if s ≠ [] ∧ s.all Char.isDigit then some (digitsToNat s : Int)
    else none

/-- Python's lexicographic `<` on lists of integers. -/
def pyListLt : List Int → List Int → Bool
  | [], [] => false
  | [], _ :: _ => true
  | _ :: _, [] => false
  | a :: as, b :: bs =>
    if a < b then true else if b < a then false else pyListLt as bs

/-- `version_lower_than(v1, v2)`: split on `'.'`, parse each component with
`int`, pad the shorter list with zeros, compare with list `<`.  A component
that `int` rejects raises, modelled as `none`. -/
def version_lower_than (v1 v2 : String) : Option Bool :=
  match (pySplit '.' v1.data).mapM pyInt, (pySplit '.' v2.data).mapM pyInt with
  | some parts1, some parts2 =>
    let length := max parts1.length parts2.length
    some (pyListLt (parts1 ++ List.replicate (length - parts1.length) 0)
                   (parts2 ++ List.replicate (length - parts2.length) 0))
  | _, _ => none

/-- The decision taken by `UpgradeCommandCLI.execute`: with `--reinstall` it
calls `upgrade_apikit_cli()` unconditionally; otherwise it upgrades exactly
when `version_lower_than(current, latest)` returns true.  An exception from
the version comparison is caught by the surrounding `try`, so no upgrade
happens then. -/
def upgrade_replaces (reinstall : Bool) (current latest : String) : Bool :=
  if reinstall then true
  else
    match version_lower_than current latest with
    | some b => b
    | none => false

/-! ### Helper lemmas about the provisioner -/

theorem run_mongodb_ok_parts (container_name storage_folder : String)
    (network_host : Bool) (port : Nat) (proc : ProcBehavior)
    (reg : Option String) (url : String) (reg' : Option String)
    (h : run_mongodb container_name storage_folder network_host port proc reg
      = .ok (url, reg')) :
    url = (if network_host then "mongodb://localhost:27017"
           else "mongodb://host.docker.internal:" ++ toString port)
    ∧ reg' = cache_running_containers reg container_name := by
  unfold run_mongodb at h
  rcases he : execute_shell_command
      (Sum.inl (mongodb_docker_command storage_folder port container_name))
      none false true 30 proc with e | r
  · rw [he] at h
    simp at h
  · rw [he] at h
    simp only [Except.ok.injEq, Prod.mk.injEq] at h
    exact ⟨h.1.symm, h.2.symm⟩

theorem run_redis_ok_parts (container_name : String)
    (network_host : Bool) (port : Nat) (proc : ProcBehavior)
    (reg : Option String) (url : String) (reg' : Option String)
    (h : run_redis container_name network_host port proc reg = .ok (url, reg')) :
    url = (if network_host then "redis://localhost:6379/0"
           else "redis://host.docker.internal:" ++ toString port ++ "/0")
    ∧ reg' = cache_running_containers reg container_name := by
  unfold run_redis at h
  rcases he : execute_shell_command
      (Sum.inl (redis_docker_command port container_name))
      none false true 30 proc with e | r
  · rw [he] at h
    simp at h
  · rw [he] at h
    simp only [Except.ok.injEq, Prod.mk.injEq] at h
    exact ⟨h.1.symm, h.2.symm⟩

/-! ### Claims -/

/-- Claim C1: for every scoped acquisition via `with_mongodb` or
`with_redis`, the `stop_docker_container(container_name)` call is made on
every exit path from the scope — normal return, an exception raised by the
body, and an exception raised by the provisioning step itself — so the stop
trace is exactly `[container_name]` whatever the body and the process
oracle do. -/
theorem c1_with_forms_always_stop (container_name storage_folder : String)
    (port : Nat) (proc : ProcBehavior) (reg : Option String)
    (body : String → Outcome) :
    (with_mongodb container_name storage_folder port proc reg body).2.2
      = [container_name]
    ∧ (with_redis container_name port proc reg body).2.2 = [container_name] := by
  constructor
  · unfold with_mongodb
    rcases h : run_mongodb container_name storage_folder false port proc reg
      with e | ⟨url, reg'⟩
    · rfl
    · cases hb : body url <;> simp [hb]
  · unfold with_redis
    rcases h : run_redis container_name false port proc reg with e | ⟨url, reg'⟩
    · rfl
    · cases hb : body url <;> simp [hb]

/-- Claim C4: every successful `run_mongodb` or `run_redis` call registers
the container name in the registry before the URL is returned: the registry
state paired with the returned URL already lists the name. -/
theorem c4_run_registers_before_url (container_name storage_folder : String)
    (network_host : Bool) (port : Nat) (proc : ProcBehavior)
    (reg : Option String) (url : String) (reg' : Option String)
    (hn : ',' ∉ container_name.data) :
    (run_mongodb container_name storage_folder network_host port proc reg
        = .ok (url, reg') →
      container_name ∈ get_running_containers reg')
    ∧ (run_redis container_name network_host port proc reg = .ok (url, reg') →
      container_name ∈ get_running_containers reg') := by
  constructor
  · intro h
    rw [(run_mongodb_ok_parts _ _ _ _ _ _ _ _ h).2,
      get_after_cache reg container_name hn]
    simp
  · intro h
    rw [(run_redis_ok_parts _ _ _ _ _ _ _ h).2,
      get_after_cache reg container_name hn]
    simp

/-- Witness for C4 at a concrete input: container `db1`, absent registry
file, port 7, a docker run that exits 0. -/
theorem c4_witness :
    ("db1" : String) ∈ get_running_containers (cache_running_containers none "db1") :=
  (c4_run_registers_before_url "db1" "" false 7 (ProcBehavior.runs 0 "" "" 0)
      none "mongodb://host.docker.internal:7"
      (cache_running_containers none "db1") (by decide)).1 rfl

/-- Claim C9: with `network_host=true` the returned URL is exactly the
service's default internal address (`mongodb://localhost:27017`,
`redis://localhost:6379/0`), ignoring the allocated host port; the
allocated port appears in the URL only with `network_host=false`
(`host.docker.internal` addresses). -/
theorem c9_url_network_mode (container_name storage_folder : String)
    (port : Nat) (proc : ProcBehavior) (reg : Option String)
    (url : String) (reg' : Option String) :
    (run_mongodb container_name storage_folder true port proc reg
        = .ok (url, reg') → url = "mongodb://localhost:27017")
    ∧ (run_mongodb container_name storage_folder false port proc reg
        = .ok (url, reg') →
      url = "mongodb://host.docker.internal:" ++ toString port)
    ∧ (run_redis container_name true port proc reg = .ok (url, reg') →
      url = "redis://localhost:6379/0")
    ∧ (run_redis container_name false port proc reg = .ok (url, reg') →
      url = "redis://host.docker.internal:" ++ toString port ++ "/0") := by
  refine ⟨fun h => ?_, fun h => ?_, fun h => ?_, fun h => ?_⟩
  · simpa using (run_mongodb_ok_parts _ _ _ _ _ _ _ _ h).1
  · simpa using (run_mongodb_ok_parts _ _ _ _ _ _ _ _ h).1
  · simpa using (run_redis_ok_parts _ _ _ _ _ _ _ h).1
  · simpa using (run_redis_ok_parts _ _ _ _ _ _ _ h).1

/-- Witness for C9 at concrete inputs: both services, both network modes,
port 7, docker run exiting 0, absent registry. -/
theorem c9_witness :
    ("mongodb://localhost:27017" : String) = "mongodb://localhost:27017"
    ∧ ("mongodb://host.docker.internal:7" : String)
        = "mongodb://host.docker.internal:" ++ toString (7 : Nat)
    ∧ ("redis://localhost:6379/0" : String) = "redis://localhost:6379/0"
    ∧ ("redis://host.docker.internal:7/0" : String)
        = "redis://host.docker.internal:" ++ toString (7 : Nat) ++ "/0" :=
  ⟨(c9_url_network_mode "db1" "" 7 (ProcBehavior.runs 0 "" "" 0) none
      "mongodb://localhost:27017" (cache_running_containers none "db1")).1 rfl,
   (c9_url_network_mode "db1" "" 7 (ProcBehavior.runs 0 "" "" 0) none
      "mongodb://host.docker.internal:7" (cache_running_containers none "db1")).2.1 rfl,
   (c9_url_network_mode "db1" "" 7 (ProcBehavior.runs 0 "" "" 0) none
      "redis://localhost:6379/0" (cache_running_containers none "db1")).2.2.1 rfl,
   (c9_url_network_mode "db1" "" 7 (ProcBehavior.runs 0 "" "" 0) none
      "redis://host.docker.internal:7/0" (cache_running_containers none "db1")).2.2.2 rfl⟩

/-- Claim C2, counterexample: starting from an absent registry file, after
`cache_running_containers("a")` then `cache_running_containers("b")`,
`get_running_containers()` returns `['', 'a', 'b']` — a three-element list
with a leading empty string from the leading comma — not `['a', 'b']` as
the claim states. -/
theorem c2_counterexample :
    get_running_containers
        (cache_running_containers (cache_running_containers none "a") "b")
      = ["", "a", "b"]
    ∧ get_running_containers
        (cache_running_containers (cache_running_containers none "a") "b")
      ≠ ["a", "b"] := by
  constructor <;> decide

/-- Claim C2 as amended: for names without commas, after
`cache_running_containers(n1)` then `cache_running_containers(n2)` starting
from an absent registry file, `get_running_containers()` returns the
three-element list `['', n1, n2]`: the two names in call order, preceded by
one empty string produced by the leading comma separator. -/
theorem c2_amended_registry_order (n1 n2 : String)
    (h1 : ',' ∉ n1.data) (h2 : ',' ∉ n2.data) :
    get_running_containers
        (cache_running_containers (cache_running_containers none n1) n2)
      = ["", n1, n2] := by
  rw [get_after_cache _ n2 h2]
  have hd : ((cache_running_containers none n1).getD "").data
      = [] ++ ',' :: n1.data := by
    show (("" ++ "," ++ n1 : String)).data = _
    simp [string_data_append]
  rw [hd, pySplit_append_cons, pySplit_eq_single ',' n1.data h1]
  simp [string_mk_data, pySplit]

/-- Witness for C2 (amended) at concrete names `db1`, `db2`. -/
theorem c2_amended_witness :
    get_running_containers
        (cache_running_containers (cache_running_containers none "db1") "db2")
      = ["", "db1", "db2"] :=
  c2_amended_registry_order "db1" "db2" (by decide) (by decide)

/-- Claim C3, counterexample: with every port of the (one-element) range
33200..33200 occupied, `find_free_port` falls back to the OS-assigned
ephemeral port (here 50000), which lies outside the requested range — so
the claim that the result always satisfies `start ≤ p ≤ end` fails. -/
theorem c3_counterexample :
    find_free_port (portRange 33200 33200) (fun _ => false) 50000 = 50000
    ∧ ¬ (33200 ≤ (50000 : Nat) ∧ (50000 : Nat) ≤ 33200) := by
  constructor <;> decide

/-- Claim C3 as amended: for any probe order `ports` that is a permutation
of the inclusive range `start..stop` (ascending when `shuffle` is false,
arbitrary when true), if some port of the range is free at check time then
`find_free_port` returns a port `p` with `start ≤ p ≤ stop` whose connect
probe failed (it was free when checked); if every port of the range is
occupied, it returns the OS-assigned fallback port, which need not lie in
the range. -/
theorem c3_amended_free_port (start stop : Nat) (ports : List Nat)
    (connectFails : Nat → Bool) (osPort : Nat)
    (hperm : ports.Perm (portRange start stop)) :
    ((∃ q ∈ ports, connectFails q = true) →
      start ≤ find_free_port ports connectFails osPort
      ∧ find_free_port ports connectFails osPort ≤ stop
      ∧ connectFails (find_free_port ports connectFails osPort) = true)
    ∧ ((∀ q ∈ ports, connectFails q = false) →
      find_free_port ports connectFails osPort = osPort) := by
  constructor
  · rintro ⟨q, hq, hfq⟩
    have hsome : (ports.find? connectFails).isSome :=
      List.find?_isSome.mpr ⟨q, hq, hfq⟩
    rcases ho : ports.find? connectFails with _ | p
    · rw [ho] at hsome
      simp at hsome
    · have hmem : p ∈ portRange start stop :=
        hperm.mem_iff.mp (List.mem_of_find?_eq_some ho)
      have hb := (mem_portRange start stop p).mp hmem
      unfold find_free_port
      rw [ho]
      exact ⟨hb.1, hb.2, List.find?_some ho⟩
  · intro hall
    unfold find_free_port
    rw [List.find?_eq_none.mpr (fun x hx => by simp [hall x hx])]

/-- Witness for C3 (amended) at a concrete input: shuffled probe order
`[33201, 33200]` of the range 33200..33201, with only 33200 free. -/
theorem c3_amended_witness :
    33200 ≤ find_free_port [33201, 33200] (fun q => q == 33200) 9
    ∧ find_free_port [33201, 33200] (fun q => q == 33200) 9 ≤ 33201
    ∧ (fun q => q == 33200)
        (find_free_port [33201, 33200] (fun q => q == 33200) 9) = true :=
  (c3_amended_free_port 33200 33201 [33201, 33200] (fun q => q == 33200) 9
      (by decide)).1 ⟨33200, by decide, by decide⟩

/-- Claim C5, counterexample: running the `ci` composite with a `lint`
sub-command that raises executes only `format` and `lint`; the remaining
sub-commands `compile`, `build`, `tests` never run, so a raised exception
in one sub-command does prevent the rest from running. -/
theorem c5_counterexample :
    composite_execute
        (fun ref => if ref = "lint" then Outcome.exc "boom" else Outcome.ok)
        ci_commands
      = (Outcome.exc "boom", ["format", "lint"])
    ∧ "compile" ∉ (composite_execute
        (fun ref => if ref = "lint" then Outcome.exc "boom" else Outcome.ok)
        ci_commands).2 := by
  constructor <;> decide

/-- Claim C5 as amended: a composite command runs its sub-commands in
listed order.  Sub-commands whose work merely fails without raising (shell
steps run with `raise_on_error=False` report failure via the `error` flag
and return normally) do not stop the pipeline: when no sub-command raises,
every listed sub-command runs.  But the loop has no exception handling, so
the first sub-command that raises aborts the composite: exactly the
sub-commands up to and including it run. -/
theorem c5_amended_composite :
    (∀ (impl : String → Outcome) (cmds : List String),
      (∀ r ∈ cmds, impl r = Outcome.ok) →
      composite_execute impl cmds = (Outcome.ok, cmds))
    ∧ (∀ (impl : String → Outcome) (pre : List String) (x : String)
        (post : List String) (m : String),
      (∀ r ∈ pre, impl r = Outcome.ok) → impl x = Outcome.exc m →
      composite_execute impl (pre ++ x :: post)
        = (Outcome.exc m, pre ++ [x])) := by
  constructor
  · intro impl cmds hok
    induction cmds with
    | nil => rfl
    | cons r rest ih =>
      have hr : impl r = Outcome.ok := hok r (List.mem_cons_self r rest)
      have hrest := ih (fun q hq => hok q (List.mem_cons_of_mem r hq))
      simp [composite_execute, hr, hrest]
  · intro impl pre x post m hok hx
    induction pre with
    | nil => simp [composite_execute, hx]
    | cons r rest ih =>
      have hr : impl r = Outcome.ok := hok r (List.mem_cons_self r rest)
      have hrest := ih (fun q hq => hok q (List.mem_cons_of_mem r hq))
      simp [composite_execute, hr, hrest]

/-- Witness for C5 (amended): a fully-succeeding `ci` run executes all five
sub-commands, and a run whose `lint` raises executes exactly
`[format, lint]`. -/
theorem c5_amended_witness :
    composite_execute (fun _ => Outcome.ok) ci_commands
      = (Outcome.ok, ci_commands)
    ∧ composite_execute
        (fun ref => if ref = "lint" then Outcome.exc "mypy crash" else Outcome.ok)
        (["format"] ++ "lint" :: ["compile", "build", "tests"])
      = (Outcome.exc "mypy crash", ["format"] ++ ["lint"]) :=
  ⟨c5_amended_composite.1 (fun _ => Outcome.ok) ci_commands (fun _ _ => rfl),
   c5_amended_composite.2
     (fun ref => if ref = "lint" then Outcome.exc "mypy crash" else Outcome.ok)
     ["format"] "lint" ["compile", "build", "tests"] "mypy crash"
     (by decide) (by decide)⟩

/-- Claim C6: when the process completes (no timeout applies), a run with
`raise_on_error=false` never raises on a non-zero exit and returns a record
with `error = (c != 0)` and `code = str(c)`; with `raise_on_error=true` a
non-zero exit raises an `APIKitCLIException` (an `Except.error`) instead of
returning a record. -/
theorem c6_exit_code_reporting (command_line : String ⊕ List String)
    (cwd : Option String) (capture_output : Bool) (timeout_secs : Nat)
    (returncode : Int) (stdout stderr : String) (duration : Nat)
    (hnt : ¬ (capture_output = true ∧ timeout_secs < duration)) :
    (∃ r, execute_shell_command command_line cwd false capture_output
        timeout_secs (ProcBehavior.runs returncode stdout stderr duration)
        = .ok r
      ∧ (r.error = true ↔ returncode ≠ 0) ∧ r.code = toString returncode)
    ∧ (returncode ≠ 0 →
      ∃ s, execute_shell_command command_line cwd true capture_output
        timeout_secs (ProcBehavior.runs returncode stdout stderr duration)
        = .error s) := by
  constructor
  · have heq : execute_shell_command command_line cwd false capture_output
        timeout_secs (ProcBehavior.runs returncode stdout stderr duration)
        = Except.ok
            { cmd := cmdText command_line
              code := toString returncode
              output := pyOr (if capture_output then some stdout else none)
                             (if capture_output then some stderr else none)
              error := decide (returncode ≠ 0)
              elapsed_secs := duration } := by
      simp only [execute_shell_command, tryShell]
      rw [if_neg hnt, if_neg (by simp)]
    exact ⟨_, heq, by simp, rfl⟩
  · intro hrc
    have heq : execute_shell_command command_line cwd true capture_output
        timeout_secs (ProcBehavior.runs returncode stdout stderr duration)
        = Except.error (exceptHandler command_line cwd
            (PyExc.apikitExc "Shell error"
              [("cmd", cmdText command_line),
               ("shell_code", toString returncode),
               ("shell_output", if capture_output then stdout else "None"),
               ("shell_error", if capture_output then stderr else "None")])) := by
      simp only [execute_shell_command, tryShell]
      rw [if_neg hnt, if_pos ⟨hrc, by simp⟩]
    exact ⟨_, heq⟩

/-- Witness for C6 at a concrete input: `capture_output=false`, exit code 1. -/
theorem c6_witness :
    (∃ r, execute_shell_command (Sum.inl "docker --version") none false false
        30 (ProcBehavior.runs 1 "" "" 0) = .ok r
      ∧ (r.error = true ↔ (1 : Int) ≠ 0) ∧ r.code = toString (1 : Int))
    ∧ (∃ s, execute_shell_command (Sum.inl "docker --version") none true false
        30 (ProcBehavior.runs 1 "" "" 0) = .error s) :=
  ⟨(c6_exit_code_reporting (Sum.inl "docker --version") none false 30 1 "" "" 0
      (by simp)).1,
   (c6_exit_code_reporting (Sum.inl "docker --version") none false 30 1 "" "" 0
      (by simp)).2 (by decide)⟩

/-- Claim C7: the wall-clock timeout is enforced only when
`capture_output=true`: then a process exceeding `timeout_secs` raises the
`'Shell timeout'` kind (not the generic `'Unknown shell error'` kind),
carrying the command text; with `capture_output=false` no call can raise
the `'Shell timeout'` kind, whatever the process does. -/
theorem c7_timeout_only_with_capture (command_line : String ⊕ List String)
    (cwd : Option String) (raise_on_error : Bool) (timeout_secs : Nat)
    (returncode : Int) (stdout stderr : String) (duration : Nat)
    (proc : ProcBehavior) :
    (timeout_secs < duration →
      execute_shell_command command_line cwd raise_on_error true timeout_secs
          (ProcBehavior.runs returncode stdout stderr duration)
        = .error ⟨"Shell timeout", [("cmd", cmdText command_line)]⟩)
    ∧ (∀ s, execute_shell_command command_line cwd raise_on_error false
        timeout_secs proc = .error s → s.msg ≠ "Shell timeout") := by
  constructor
  · intro hlt
    simp only [execute_shell_command, tryShell]
    rw [if_pos ⟨by simp, hlt⟩]
    rfl
  · intro s hs
    cases proc with
    | spawnFailure excName errMsg =>
      simp only [execute_shell_command, tryShell, Except.error.injEq] at hs
      rw [← hs]
      simp [exceptHandler]
    | runs rc out err dur =>
      simp only [execute_shell_command, tryShell] at hs
      rw [if_neg (by simp)] at hs
      by_cases hrc : rc ≠ 0 ∧ raise_on_error = true
      · rw [if_pos hrc] at hs
        simp only [Except.error.injEq] at hs
        rw [← hs]
        simp [exceptHandler]
      · rw [if_neg hrc] at hs
        simp at hs

/-- Witness for C7 at a concrete input: a command sleeping 5 seconds
against a 1-second timeout with output capture raises the
`'Shell timeout'` kind; the same process with `capture_output=false`
returns normally (so the no-timeout conjunct applies vacuously at this
input and is additionally exercised on the error-free run). -/
theorem c7_witness :
    execute_shell_command (Sum.inl "sleep 5") none false true 1
        (ProcBehavior.runs 0 "" "" 5)
      = .error ⟨"Shell timeout", [("cmd", "sleep 5")]⟩
    ∧ (∀ s, execute_shell_command (Sum.inl "sleep 5") none false false 1
        (ProcBehavior.runs 0 "" "" 5) = .error s → s.msg ≠ "Shell timeout") :=
  ⟨(c7_timeout_only_with_capture (Sum.inl "sleep 5") none false 1 0 "" "" 5
      (ProcBehavior.runs 0 "" "" 5)).1 (by decide),
   (c7_timeout_only_with_capture (Sum.inl "sleep 5") none false 1 0 "" "" 5
      (ProcBehavior.runs 0 "" "" 5)).2⟩

/-- Claim C8 (code bug): `APIKitCLIException.__init__(self, msg, **kwargs)`
has body `pass`, so the keyword context passed at every raise site — the
original command text, exit code, captured output, working directory — is
discarded; two raises differing only in that context produce
indistinguishable exception values, hence none of those fields is
retrievable from the raised exception.  Concretely, the exceptions raised
for two different commands that both exit 1 under `raise_on_error=true`
are equal values. -/
theorem c8_exception_discards_context :
    (∀ (msg : String) (k1 k2 : List (String × String)),
      APIKitCLIException.new msg k1 = APIKitCLIException.new msg k2)
    ∧ (∃ s1 s2,
      execute_shell_command (Sum.inl "docker stop -t 3 c1") none true false 30
          (ProcBehavior.runs 1 "" "" 0) = .error s1
      ∧ execute_shell_command (Sum.inl "docker stop -t 3 c2") none true false 30
          (ProcBehavior.runs 1 "" "" 0) = .error s2
      ∧ s1.kwargs ≠ s2.kwargs
      ∧ raised_value s1 = raised_value s2) :=
  ⟨fun _ _ _ => rfl, _, _, rfl, rfl, by decide, rfl⟩

theorem pyListLt_self (l : List Int) : pyListLt l l = false := by
  induction l with
  | nil => rfl
  | cons a t ih => simp [pyListLt, ih]

/-- Claim C10, counterexample: with the `--reinstall` flag the upgrade
command replaces the executable even when `version_lower_than(current,
latest)` does not hold — e.g. when current and latest are both `0.2` — so
the executable is not replaced *only* when `version_lower_than` holds. -/
theorem c10_counterexample :
    upgrade_replaces true "0.2" "0.2" = true
    ∧ version_lower_than "0.2" "0.2" = some false := by
  constructor <;> decide

/-- Claim C10 as amended: `version_lower_than` pads the shorter component
list with zeros and compares component-wise numerically — it is
irreflexive on every version whose components parse,
`version_lower_than('1.2', '1.2.0')` and `version_lower_than('1.2.0',
'1.2')` are both false, and `version_lower_than('1.9', '1.10')` is true;
the upgrade command *without* `--reinstall` replaces the executable exactly
when `version_lower_than(current, latest)` returns true, while with
`--reinstall` it replaces unconditionally. -/
theorem c10_amended_version_compare :
    (∀ (v : String) (p : List Int),
      (pySplit '.' v.data).mapM pyInt = some p →
      version_lower_than v v = some false)
    ∧ version_lower_than "1.2" "1.2.0" = some false
    ∧ version_lower_than "1.2.0" "1.2" = some false
    ∧ version_lower_than "1.9" "1.10" = some true
    ∧ (∀ current latest : String,
      upgrade_replaces false current latest = true
        ↔ version_lower_than current latest = some true)
    ∧ (∀ current latest : String, upgrade_replaces true current latest = true) := by
  refine ⟨?_, by decide, by decide, by decide, ?_, fun _ _ => rfl⟩
  · intro v p hp
    unfold version_lower_than
    rw [hp]
    simp [pyListLt_self]
  · intro current latest
    simp only [upgrade_replaces, if_neg (by simp : ¬ (false = true))]
    rcases h : version_lower_than current latest with _ | b
    · simp
    · rcases b <;> simp

/-- Witness for C10 (amended) at the concrete version string `0.2`, whose
components parse as `[0, 2]`. -/
theorem c10_amended_witness : version_lower_than "0.2" "0.2" = some false :=
  c10_amended_version_compare.1 "0.2" [0, 2] (by decide)
